import Mathlib

/-!
Verification of the Palisades debris-flow analysis service
(`backend/services/palisades_service.py`, `backend/services/gis_service.py`)
against its natural-language specification.

The Python source is shallowly embedded: machine floats become real numbers,
dictionaries become structures with `Option` fields for keys that may be
absent, the file-backed result cache becomes a function from file names to
optional parsed documents, and the external WhiteboxTools / rasterio calls
become explicit parameters (their outcomes are inputs of the embedded
pipeline functions).
-/

open Real

namespace Palisades

/-! ## Model coefficients (palisades_service.py lines 81-97) -/

/-- Rainfall intensities (mm/hr), line 81. -/
noncomputable def I15_VALUES : List ℝ := [16, 20, 24, 40]

/-- Staley (2017) M1 coefficient b0, line 87. -/
noncomputable def STALEY_B0 : ℝ := -3.63

/-- Staley (2017) M1 coefficient b1 (terrain term), line 88. -/
noncomputable def STALEY_B1 : ℝ := 0.41

/-- Staley (2017) M1 coefficient b2 (fire term), line 89. -/
noncomputable def STALEY_B2 : ℝ := 0.67

/-- Staley (2017) M1 coefficient b3 (rainfall term), line 90. -/
noncomputable def STALEY_B3 : ℝ := 0.07

/-- Gartner (2014) volume coefficient a0, line 94. -/
noncomputable def GARTNER_A0 : ℝ := -1.87

/-- Gartner (2014) volume coefficient a1, line 95. -/
noncomputable def GARTNER_A1 : ℝ := 0.56

/-- Gartner (2014) volume coefficient a2, line 96. -/
noncomputable def GARTNER_A2 : ℝ := 0.97

/-- Gartner (2014) volume coefficient a3, line 97. -/
noncomputable def GARTNER_A3 : ℝ := 0.61

/-! ## Step 9: the hazard model (`_step9_run_model`, lines 521-579) -/

/-- Per-basin statistics as produced by step 8 (slope in radians, burn ratio,
high-severity burn ratio), lines 510-514. -/
structure BasinStats where
  slope_rad : ℝ
  burn_ratio : ℝ
  high_sev_ratio : ℝ

/-- The default statistics substituted in step 9 when `basin_stats` is shorter
than the basin list (line 528). -/
noncomputable def defaultStats9 : BasinStats :=
  { slope_rad := 0.26, burn_ratio := 0.8, high_sev_ratio := 0.35 }

/-- The logistic exponent `X = b0 + b1*sin(2*slope) + b2*high_sev +
b3*sqrt(I15*burn_ratio)` of lines 542-546. -/
noncomputable def staleyX (slope_r burn_ratio high_sev I15 : ℝ) : ℝ :=
  STALEY_B0 + STALEY_B1 * Real.sin (2 * slope_r) + STALEY_B2 * high_sev
    + STALEY_B3 * Real.sqrt (I15 * burn_ratio)

/-- The debris-flow probability `P = 1/(1 + exp(-X))` of line 547. -/
noncomputable def staleyP (slope_r burn_ratio high_sev I15 : ℝ) : ℝ :=
  1 / (1 + Real.exp (-(staleyX slope_r burn_ratio high_sev I15)))

/-- The Gartner (2014) volume
`V = 10^(a0 + a1*log10(max(I15,1)) + a2*log10(max(area,0.01)) + a3*high_sev)`
of lines 550-557. -/
noncomputable def gartnerV (area_km2 high_sev I15 : ℝ) : ℝ :=
  (10 : ℝ) ^ (GARTNER_A0 + GARTNER_A1 * Real.logb 10 (max I15 1)
    + GARTNER_A2 * Real.logb 10 (max area_km2 0.01) + GARTNER_A3 * high_sev)

/-- The combined hazard classification of lines 560-567. -/
noncomputable def hazardClass (P V : ℝ) : ℝ :=
  if 0.60 ≤ P ∧ 1000 ≤ V then 3
  else if 0.40 ≤ P ∨ 500 ≤ V then 2
  else if 0.20 ≤ P ∨ 100 ≤ V then 1
  else 0

/-- Python's `round(x, d)`, used when the feature properties are written
(lines 535-537 and 569-570): the value is scaled by `10^d`, rounded to the
nearest integer, and scaled back. -/
noncomputable def roundTo (d : ℕ) (x : ℝ) : ℝ :=
  (round (x * 10 ^ d) : ℤ) / 10 ^ d

/-- One hazard record entry: the probability, volume and hazard class the
loop body of lines 540-571 computes for one rainfall intensity.  The stored
properties are `P_j = roundTo 4 P`, `V_j = roundTo 2 V` and `H_j = H`
(lines 569-571). -/
structure HazardEntry where
  P : ℝ
  V : ℝ
  H : ℝ

/-- The loop body of lines 540-571 for one rainfall intensity: `H` is
computed from the unrounded `P` and `V` (lines 560-567). -/
noncomputable def modelEntry (s : BasinStats) (area_km2 I15 : ℝ) : HazardEntry :=
  { P := staleyP s.slope_rad s.burn_ratio s.high_sev_ratio I15
    V := gartnerV area_km2 s.high_sev_ratio I15
    H := hazardClass (staleyP s.slope_rad s.burn_ratio s.high_sev_ratio I15)
          (gartnerV area_km2 s.high_sev_ratio I15) }

/-- The recorded `P_j` property: `round(P, 4)` (line 569). -/
noncomputable def recordedP (e : HazardEntry) : ℝ := roundTo 4 e.P

/-- The recorded `V_j` property: `round(V, 2)` (line 570). -/
noncomputable def recordedV (e : HazardEntry) : ℝ := roundTo 2 e.V

/-- One output feature of step 9: the rounded base properties of lines
534-538 plus one `HazardEntry` per rainfall intensity of the schedule. -/
structure HazardFeature where
  Area_km2 : ℝ
  BurnRatio : ℝ
  Slope : ℝ
  entries : List HazardEntry

/-- The per-basin body of `_step9_run_model` (lines 527-577). -/
noncomputable def mkHazardFeature (s : BasinStats) (area_km2 : ℝ) : HazardFeature :=
  { Area_km2 := roundTo 4 area_km2
    BurnRatio := roundTo 4 s.burn_ratio
    Slope := roundTo 4 s.slope_rad
    entries := I15_VALUES.map (modelEntry s area_km2) }

/-- The indexed iteration of `_step9_run_model`: basin `i` is paired with
`basin_stats[i]` when it exists and with the inline default otherwise
(line 528). -/
noncomputable def step9_go (stats : List BasinStats) : ℕ → List ℝ → List HazardFeature
  | _, [] => []
  | i, area :: rest =>
      mkHazardFeature ((stats[i]?).getD defaultStats9) area :: step9_go stats (i + 1) rest

/-- `_step9_run_model` (lines 521-579), as a function of each basin's
`Area_km2` attribute and the step-8 statistics list. -/
noncomputable def step9_run_model (basins : List ℝ) (stats : List BasinStats) :
    List HazardFeature :=
  step9_go stats 0 basins

/-- The basin area used by the C1 counterexample: the area (in km²) whose
Gartner volume at `I15 = 16`, `high_sev = 0` is exactly 499.999 m³ — a value
the filter of step 7 cannot produce (it caps `Area_km2` at 8) but the
perimeter fallback of lines 462-466 can, since the analysis perimeter's
area is unconstrained. -/
noncomputable def cexArea : ℝ :=
  (10 : ℝ) ^ ((Real.logb 10 499.999 + 1.87 - 0.56 * Real.logb 10 16) / 0.97)

/-- The basin statistics of the end-to-end scenario of the spec (slope 20°
in radians, burn ratio 0.9, high-severity ratio 0.5). -/
noncomputable def scenarioStats : BasinStats :=
  { slope_rad := 20 * π / 180, burn_ratio := 0.9, high_sev_ratio := 0.5 }

/-! ## Step 7: sub-basin delineation tail (`_step7_delineate_basins`, lines 422-468)

The WhiteboxTools calls and the geometric clipping are external; what the
claims concern is the area computation, the area filter and the
zero-basin fallback of lines 456-466.  A basin at that point is its polygon,
of which only the projected-CRS area (in m², `geometry.area`) matters here. -/

/-- A basin polygon after clipping, identified by its projected-CRS
geometry area in m² (`geometry.area`, line 457). -/
structure Basin where
  geom_area : ℝ

/-- `Area_km2 = geometry.area / 1e6` (line 457). -/
noncomputable def basin_area_km2 (b : Basin) : ℝ := b.geom_area / 1e6

/-- The area filter of lines 457-460: compute each basin's `Area_km2`
column and keep the rows with `0.01 <= Area_km2 <= 8.0`. -/
noncomputable def step7_area_filter (bs : List Basin) : List (Basin × ℝ) :=
  (bs.map fun b => (b, basin_area_km2 b)).filter
    fun p => decide (0.01 ≤ p.2 ∧ p.2 ≤ 8.0)

/-- Lines 462-466: if the filter left zero basins, the analysis perimeter
itself (with its computed `Area_km2`) becomes the sole basin. -/
noncomputable def step7_finalize (perim : Basin) (filtered : List (Basin × ℝ)) :
    List (Basin × ℝ) :=
  if filtered.length = 0 then [(perim, basin_area_km2 perim)] else filtered

/-- The filter-and-fallback tail of `_step7_delineate_basins`
(lines 456-468). -/
noncomputable def step7_filter_with_fallback (perim : Basin) (bs : List Basin) :
    List (Basin × ℝ) :=
  step7_finalize perim (step7_area_filter bs)

/-! ## The job table, cache and orchestrator
(`start_analysis`, `get_status`, `clear_cache`, `_run`, `_run_zone`) -/

/-- A parsed GeoJSON document in a cache slot.  `features = none` models a
document without a `"features"` key (`_count_cached_basins` reads
`.get("features", [])`, line 298). -/
structure GeoDoc where
  features : Option (List HazardFeature)

/-- The cache directory: file name to the parsed document it holds, `none`
when the file does not exist. -/
def CacheFS : Type := String → Option GeoDoc

/-- One job's entry in the `_jobs` dictionary.  Keys the Python dict may
lack are `Option` fields. -/
structure Job where
  status : String
  step : ℕ
  message : String
  progress : ℕ
  error : Option String := none
  traceback : Option String := none
  basin_count : Option ℕ := none

/-- The service's mutable state: the in-memory `_jobs` dictionary (newest
entry first) and the cache directory. -/
structure ServiceState where
  jobs : List (String × Job)
  cache : CacheFS

/-- Dictionary lookup in `_jobs`. -/
def job_lookup (jobs : List (String × Job)) (job_id : String) : Option Job :=
  (jobs.lookup job_id)

/-- `p.unlink()` guarded by `p.exists()` (lines 166-168). -/
def unlink_if_exists (c : CacheFS) (name : String) : CacheFS :=
  if (c name).isSome then (fun m => if m = name then none else c m) else c

/-- `clear_cache` (lines 164-168): unlink `basins.geojson` and
`perimeter.geojson`, each only when present. -/
def clear_cache (c : CacheFS) : CacheFS :=
  ["basins.geojson", "perimeter.geojson"].foldl unlink_if_exists c

/-- The job-keyed zone result slot name `f"zone_{job_id}.geojson"`
(line 285). -/
def zone_slot (job_id : String) : String := "zone_" ++ job_id ++ ".geojson"

/-- `_count_cached_basins` (lines 295-300): parse the cached
`basins.geojson` and count its features; any failure (including a missing
file) yields 0. -/
def count_cached_basins (st : ServiceState) : ℕ :=
  match st.cache "basins.geojson" with
  | none => 0
  | some d => (d.features.getD []).length

/-- The return value of `start_analysis`. -/
structure StartResult where
  job_id : String
  cached : Bool

/-- `start_analysis` (lines 103-138).  `freshId` stands for the generated
uuid fragment.  The final `Bool` records whether a background pipeline
thread was started (line 136-137); the synthetic cached branch starts
none, and the per-run workspace is only ever created inside the launched
thread (`_run`, line 305). -/
def start_analysis (force : Bool) (freshId : String) (st : ServiceState) :
    ServiceState × StartResult × Bool :=
  if force = false ∧ (st.cache "basins.geojson").isSome then
    ({ st with jobs := ("cached_" ++ freshId,
        { status := "completed"
          step := 10
          message := "Analysis complete! (Cached results loaded)"
          progress := 100
          basin_count := some (count_cached_basins st) }) :: st.jobs },
     { job_id := "cached_" ++ freshId, cached := true }, false)
  else
    let st1 := if force then { st with cache := clear_cache st.cache } else st
    ({ st1 with jobs := (freshId,
        { status := "running"
          step := 0
          message := "Starting analysis..."
          progress := 0
          error := none }) :: st1.jobs },
     { job_id := freshId, cached := false }, true)

/-- The structured object `get_status` returns (lines 140-143): either the
job's own entry or the synthetic not-found object. -/
structure StatusResponse where
  status : String
  step : Option ℕ := none
  message : Option String := none
  progress : Option ℕ := none
  error : Option String := none
  basin_count : Option ℕ := none

/-- `get_status` (lines 140-143): a lookup miss yields the synthetic
`not_found` object; a hit yields the stored entry.  The embedding is a
total function: no exception is involved. -/
def get_status (job_id : String) (st : ServiceState) : StatusResponse :=
  match job_lookup st.jobs job_id with
  | none =>
      { status := "not_found"
        error := some ("Job " ++ job_id ++ " not found") }
  | some j =>
      { status := j.status
        step := some j.step
        message := some j.message
        progress := some j.progress
        error := j.error
        basin_count := j.basin_count }

/-! ## The pipeline runner (`_run`, lines 302-335; `_run_zone`, lines
198-232)

Each stage first calls `_update(job_id, step, message, progress)`
(line 292-293) and then performs external work that may raise.  The
external outcomes are a parameter `outcome : ℕ → Option String` mapping a
stage number to `none` (success) or `some e` (the exception's description
`str(e)`); `tb e` stands for `traceback.format_exc()` at that failure.
The runner returns the job entry at the end of the run together with the
list of stage numbers that were entered, in order. -/

/-- The `(step, message, progress)` triples of the ten `_update` calls of
the default run, in pipeline order (lines 339, 346, 390, 398, 406, 414,
423, 472, 522, 583). -/
def stageUpdates : List (ℕ × String × ℕ) :=
  [(1, "Loading fire perimeter, DEM, and dNBR rasters...", 5),
   (2, "Reprojecting to UTM Zone 11N (projected CRS for LA area)...", 15),
   (3, "Filling topographic depressions in DEM...", 28),
   (4, "Computing D8 flow direction across terrain...", 40),
   (5, "Computing flow accumulation (upslope contributing area)...", 52),
   (6, "Extracting stream network (threshold: 0.025 km²)...", 62),
   (7, "Delineating sub-basins from stream network...", 73),
   (8, "Computing slope and burn severity for each sub-basin...", 82),
   (9, "Running Staley (2017) debris-flow probability model...", 91),
   (10, "Exporting GeoJSON results and fire perimeter...", 95)]

/-- The `(step, message, progress)` triples of the zone run's `_update`
calls: stage 2 (line 236) and stage 10 (line 282) carry zone-specific
messages, the rest are the shared stage functions. -/
def zoneStageUpdates : List (ℕ × String × ℕ) :=
  [(1, "Loading fire perimeter, DEM, and dNBR rasters...", 5),
   (2, "Reprojecting zone polygon to UTM Zone 11N...", 15),
   (3, "Filling topographic depressions in DEM...", 28),
   (4, "Computing D8 flow direction across terrain...", 40),
   (5, "Computing flow accumulation (upslope contributing area)...", 52),
   (6, "Extracting stream network (threshold: 0.025 km²)...", 62),
   (7, "Delineating sub-basins from stream network...", 73),
   (8, "Computing slope and burn severity for each sub-basin...", 82),
   (9, "Running Staley (2017) debris-flow probability model...", 91),
   (10, "Exporting zone analysis results...", 95)]

/-- The job entry `start_analysis` creates before launching `_run`
(lines 129-135). -/
def run_initial_job : Job :=
  { status := "running"
    step := 0
    message := "Starting analysis..."
    progress := 0
    error := none }

/-- The job entry `start_zone_analysis` creates before launching
`_run_zone` (lines 179-186). -/
def zone_initial_job : Job :=
  { status := "running"
    step := 0
    message := "Starting zone analysis..."
    progress := 0
    error := none }

/-- Run the stages in order over a job entry.  A stage applies its
`_update` and then its external work: on `some e` the except-handler of
lines 325-332 (and 222-229) sets `status`, `error`, `traceback` and
`message` — and nothing else, so `step` and `progress` keep the values the
failing stage's `_update` gave them — and the run stops.  When every
stage succeeds, the completion update of lines 317-323 runs
(`completeMsg` is the success message, `nBasins` the feature count). -/
def run_stages (outcome : ℕ → Option String) (tb : String → String)
    (completeMsg : String) (nBasins : ℕ) :
    List (ℕ × String × ℕ) → Job → Job × List ℕ
  | [], j =>
      ({ j with
          status := "completed"
          step := 10
          message := completeMsg
          progress := 100
          basin_count := some nBasins }, [])
  | (k, msg, prog) :: rest, j =>
      let j1 : Job := { j with step := k, message := msg, progress := prog }
      match outcome k with
      | some e =>
          ({ j1 with
              status := "error"
              error := some e
              traceback := some (tb e)
              message := "Error: " ++ e }, [k])
      | none =>
          let r := run_stages outcome tb completeMsg nBasins rest j1
          (r.1, k :: r.2)

/-- `_run` (lines 302-335): the default pipeline over its fresh job entry. -/
def run_default (outcome : ℕ → Option String) (tb : String → String)
    (completeMsg : String) (nBasins : ℕ) : Job × List ℕ :=
  run_stages outcome tb completeMsg nBasins stageUpdates run_initial_job

/-- `_run_zone` (lines 198-232): the zone pipeline over its fresh job
entry. -/
def run_zone (outcome : ℕ → Option String) (tb : String → String)
    (completeMsg : String) (nBasins : ℕ) : Job × List ℕ :=
  run_stages outcome tb completeMsg nBasins zoneStageUpdates zone_initial_job

end Palisades

namespace GIS

/-! ## `GISService` (`gis_service.py`) -/

/-- A feature of the source `basins.geojson` as `GISService` reads it: its
geometry (of an abstract geometry type `γ`) and its properties dictionary,
numeric-valued, `none` for an absent key. -/
structure GISFeature (γ : Type) where
  geometry : γ
  props : String → Option ℝ

/-- `filter_basins_by_polygon` (lines 27-71): keep the features whose
geometry intersects the user polygon.  The shapely `intersects` test is
external; it enters as the predicate `its`. -/
def filter_basins_by_polygon {γ : Type} (its : γ → Bool)
    (features : List (GISFeature γ)) : List (GISFeature γ) :=
  features.filter fun f => its f.geometry

/-- `feature["properties"].get("P_3", 0)` (line 103). -/
def p3_of {γ : Type} (f : GISFeature γ) : ℝ := (f.props "P_3").getD 0

/-- The hazard-distribution counters (line 100). -/
structure HazardCounts where
  high : ℕ
  moderate : ℕ
  low : ℕ
  very_low : ℕ

/-- The initial counters `{"High": 0, "Moderate": 0, "Low": 0,
"Very Low": 0}` (line 100). -/
def zeroCounts : HazardCounts := ⟨0, 0, 0, 0⟩

/-- The bucketing of one feature's `p3` (lines 104-111). -/
noncomputable def tally (c : HazardCounts) (p3 : ℝ) : HazardCounts :=
  if 0.7 ≤ p3 then { c with high := c.high + 1 }
  else if 0.4 ≤ p3 then { c with moderate := c.moderate + 1 }
  else if 0.2 ≤ p3 then { c with low := c.low + 1 }
  else { c with very_low := c.very_low + 1 }

/-- The loop of lines 102-111 over the filtered features. -/
noncomputable def hazard_distribution {γ : Type} (fs : List (GISFeature γ)) :
    HazardCounts :=
  fs.foldl (fun c f => tally c (p3_of f)) zeroCounts

/-- The statistics object `get_polygon_statistics` returns.  In the
zero-feature early return (lines 89-94) the hazard distribution is the
empty dict, modelled as `none`. -/
structure PolygonStats where
  basin_count : ℕ
  total_area_km2 : ℝ
  hazard_distribution : Option HazardCounts
  average_probability_p3 : ℝ

/-- `get_polygon_statistics` (lines 73-121). -/
noncomputable def get_polygon_statistics {γ : Type} (its : γ → Bool)
    (features : List (GISFeature γ)) : PolygonStats :=
  let filtered := filter_basins_by_polygon its features
  if filtered.isEmpty then
    { basin_count := 0
      total_area_km2 := 0
      hazard_distribution := none
      average_probability_p3 := 0 }
  else
    { basin_count := filtered.length
      total_area_km2 := Palisades.roundTo 4
        ((filtered.map fun f => (f.props "Area_km2").getD 0).sum)
      hazard_distribution := some (hazard_distribution filtered)
      average_probability_p3 := Palisades.roundTo 4
        ((filtered.map p3_of).sum / filtered.length) }

end GIS

/-! # Theorems -/

namespace Palisades

/-! ## Helper lemmas -/

/-- Which class each `hazardClass` value stands for, as an iff per class. -/
theorem hazardClass_cases (P V : ℝ) :
    (hazardClass P V = 3 ↔ (0.60 ≤ P ∧ 1000 ≤ V)) ∧
    (hazardClass P V = 2 ↔ (¬(0.60 ≤ P ∧ 1000 ≤ V) ∧ (0.40 ≤ P ∨ 500 ≤ V))) ∧
    (hazardClass P V = 1 ↔
      (¬(0.60 ≤ P ∧ 1000 ≤ V) ∧ ¬(0.40 ≤ P ∨ 500 ≤ V) ∧ (0.20 ≤ P ∨ 100 ≤ V))) ∧
    (hazardClass P V = 0 ↔
      (¬(0.60 ≤ P ∧ 1000 ≤ V) ∧ ¬(0.40 ≤ P ∨ 500 ≤ V) ∧ ¬(0.20 ≤ P ∨ 100 ≤ V))) := by
  unfold hazardClass
  split_ifs with h1 h2 h3
  · exact ⟨iff_of_true rfl h1, iff_of_false (by norm_num) (fun h => h.1 h1),
      iff_of_false (by norm_num) (fun h => h.1 h1),
      iff_of_false (by norm_num) (fun h => h.1 h1)⟩
  · exact ⟨iff_of_false (by norm_num) h1, iff_of_true rfl ⟨h1, h2⟩,
      iff_of_false (by norm_num) (fun h => h.2.1 h2),
      iff_of_false (by norm_num) (fun h => h.2.1 h2)⟩
  · exact ⟨iff_of_false (by norm_num) h1,
      iff_of_false (by norm_num) (fun h => h2 h.2),
      iff_of_true rfl ⟨h1, h2, h3⟩,
      iff_of_false (by norm_num) (fun h => h.2.2 h3)⟩
  · exact ⟨iff_of_false (by norm_num) h1,
      iff_of_false (by norm_num) (fun h => h2 h.2),
      iff_of_false (by norm_num) (fun h => h3 h.2.2),
      iff_of_true rfl ⟨h1, h2, h3⟩⟩

/-- Every feature `step9_go` emits is `mkHazardFeature` of some statistics
and some area. -/
theorem step9_go_mem {stats : List BasinStats} {i : ℕ} {basins : List ℝ}
    {f : HazardFeature} (hf : f ∈ step9_go stats i basins) :
    ∃ s area, f = mkHazardFeature s area := by
  induction basins generalizing i with
  | nil => simp [step9_go] at hf
  | cons a rest ih =>
      simp only [step9_go, List.mem_cons] at hf
      rcases hf with h | h
      · exact ⟨_, _, h⟩
      · exact ih h

/-- Every entry of a `mkHazardFeature` is `modelEntry` at some rainfall
intensity. -/
theorem mkHazardFeature_entries_mem {s : BasinStats} {area : ℝ} {e : HazardEntry}
    (he : e ∈ (mkHazardFeature s area).entries) :
    ∃ I15, e = modelEntry s area I15 := by
  simp only [mkHazardFeature, List.mem_map] at he
  obtain ⟨I, _, hEq⟩ := he
  exact ⟨I, hEq.symm⟩

/-- The counterexample area is at least 1 km². -/
theorem cexArea_ge_one : (1 : ℝ) ≤ cexArea := by
  rw [cexArea, show (1:ℝ) = (10:ℝ) ^ (0:ℝ) from (Real.rpow_zero 10).symm]
  rw [Real.rpow_le_rpow_left_iff (by norm_num : (1:ℝ) < 10)]
  have hl : (0:ℝ) < Real.logb 10 499.999 := Real.logb_pos (by norm_num) (by norm_num)
  have hl16 : Real.logb 10 16 < 2 := by
    have h : Real.logb 10 16 < ((2:ℕ):ℝ) := by
      rw [Real.logb_lt_iff_lt_rpow (by norm_num) (by norm_num), Real.rpow_natCast]
      norm_num
    simpa using h
  have h0 : (0:ℝ) ≤ Real.logb 10 499.999 + 1.87 - 0.56 * Real.logb 10 16 := by
    nlinarith
  positivity

/-- At the counterexample area, `high_sev = 0` and `I15 = 16` the Gartner
volume is exactly 499.999 m³. -/
theorem gartnerV_cex : gartnerV cexArea 0 16 = 499.999 := by
  have hmax16 : max (16:ℝ) 1 = 16 := max_eq_left (by norm_num)
  have hmaxA : max cexArea 0.01 = cexArea :=
    max_eq_left (le_trans (by norm_num) cexArea_ge_one)
  have hlogA : Real.logb 10 cexArea
      = (Real.logb 10 499.999 + 1.87 - 0.56 * Real.logb 10 16) / 0.97 := by
    rw [cexArea, Real.logb_rpow (by norm_num) (by norm_num)]
  rw [gartnerV, hmax16, hmaxA, hlogA, GARTNER_A0, GARTNER_A1, GARTNER_A2, GARTNER_A3]
  have he : (-1.87 : ℝ) + 0.56 * Real.logb 10 16
      + 0.97 * ((Real.logb 10 499.999 + 1.87 - 0.56 * Real.logb 10 16) / 0.97)
      + 0.61 * 0 = Real.logb 10 499.999 := by
    field_simp
  rw [he, Real.rpow_logb (by norm_num) (by norm_num) (by norm_num)]

/-- At slope 0, burn ratio 0, high severity 0 and `I15 = 16` the Staley
probability is positive and below 0.4. -/
theorem staleyP_cex_bounds : staleyP 0 0 0 16 < 0.4 ∧ 0 < staleyP 0 0 0 16 := by
  have hX : staleyX 0 0 0 16 = -3.63 := by
    rw [staleyX, STALEY_B0, STALEY_B1, STALEY_B2, STALEY_B3]
    norm_num
  have hE : (4.63 : ℝ) ≤ Real.exp 3.63 := by
    have h := Real.add_one_le_exp (3.63 : ℝ)
    linarith
  have hpos : (0:ℝ) < 1 + Real.exp 3.63 := by positivity
  have hneg : -(-3.63 : ℝ) = 3.63 := by norm_num
  constructor
  · rw [staleyP, hX, hneg, div_lt_iff₀ hpos]
    nlinarith
  · rw [staleyP, hX, hneg]
    positivity

/-- Rounding 499.999 to two decimals yields 500. -/
theorem roundTo_cex : roundTo 2 (499.999 : ℝ) = 500 := by
  rw [roundTo, round_eq]
  norm_num

/-! ## C1 -/

/-- C1 (amended): for every hazard record entry the model-evaluation stage
produces, the stored class `H` is exactly `hazardClass` applied to the
probability `P` and volume `V` the stage computed — the threshold table
with its AND/OR asymmetry (class 3 iff `P ≥ 0.60 ∧ V ≥ 1000`, else class 2
iff `P ≥ 0.40 ∨ V ≥ 500`, else class 1 iff `P ≥ 0.20 ∨ V ≥ 100`, else
class 0), so re-evaluating the table on the computed pair reproduces the
stored class.  (On the *recorded* pair, which is rounded to 4 and 2
decimals, re-evaluation can differ: see the counterexample.) -/
theorem C1_class_is_threshold_table_of_computed_PV
    (basins : List ℝ) (stats : List BasinStats) (f : HazardFeature)
    (e : HazardEntry) (hf : f ∈ step9_run_model basins stats)
    (he : e ∈ f.entries) :
    e.H = hazardClass e.P e.V ∧
    ((hazardClass e.P e.V = 3 ↔ (0.60 ≤ e.P ∧ 1000 ≤ e.V)) ∧
     (hazardClass e.P e.V = 2 ↔
       (¬(0.60 ≤ e.P ∧ 1000 ≤ e.V) ∧ (0.40 ≤ e.P ∨ 500 ≤ e.V))) ∧
     (hazardClass e.P e.V = 1 ↔
       (¬(0.60 ≤ e.P ∧ 1000 ≤ e.V) ∧ ¬(0.40 ≤ e.P ∨ 500 ≤ e.V) ∧
        (0.20 ≤ e.P ∨ 100 ≤ e.V))) ∧
     (hazardClass e.P e.V = 0 ↔
       (¬(0.60 ≤ e.P ∧ 1000 ≤ e.V) ∧ ¬(0.40 ≤ e.P ∨ 500 ≤ e.V) ∧
        ¬(0.20 ≤ e.P ∨ 100 ≤ e.V)))) := by
  rw [step9_run_model] at hf
  obtain ⟨s, area, rfl⟩ := step9_go_mem hf
  obtain ⟨I, rfl⟩ := mkHazardFeature_entries_mem he
  exact ⟨rfl, hazardClass_cases _ _⟩

/-- Witness for C1: the first hazard entry of a one-basin run with area 1,
all statistics zero. -/
theorem C1_class_is_threshold_table_witness :
    (modelEntry (BasinStats.mk 0 0 0) 1 16).H
      = hazardClass (modelEntry (BasinStats.mk 0 0 0) 1 16).P
          (modelEntry (BasinStats.mk 0 0 0) 1 16).V ∧
    ((hazardClass (modelEntry (BasinStats.mk 0 0 0) 1 16).P
        (modelEntry (BasinStats.mk 0 0 0) 1 16).V = 3 ↔
      (0.60 ≤ (modelEntry (BasinStats.mk 0 0 0) 1 16).P ∧
       1000 ≤ (modelEntry (BasinStats.mk 0 0 0) 1 16).V)) ∧
     (hazardClass (modelEntry (BasinStats.mk 0 0 0) 1 16).P
        (modelEntry (BasinStats.mk 0 0 0) 1 16).V = 2 ↔
      (¬(0.60 ≤ (modelEntry (BasinStats.mk 0 0 0) 1 16).P ∧
         1000 ≤ (modelEntry (BasinStats.mk 0 0 0) 1 16).V) ∧
       (0.40 ≤ (modelEntry (BasinStats.mk 0 0 0) 1 16).P ∨
        500 ≤ (modelEntry (BasinStats.mk 0 0 0) 1 16).V))) ∧
     (hazardClass (modelEntry (BasinStats.mk 0 0 0) 1 16).P
        (modelEntry (BasinStats.mk 0 0 0) 1 16).V = 1 ↔
      (¬(0.60 ≤ (modelEntry (BasinStats.mk 0 0 0) 1 16).P ∧
         1000 ≤ (modelEntry (BasinStats.mk 0 0 0) 1 16).V) ∧
       ¬(0.40 ≤ (modelEntry (BasinStats.mk 0 0 0) 1 16).P ∨
         500 ≤ (modelEntry (BasinStats.mk 0 0 0) 1 16).V) ∧
       (0.20 ≤ (modelEntry (BasinStats.mk 0 0 0) 1 16).P ∨
        100 ≤ (modelEntry (BasinStats.mk 0 0 0) 1 16).V))) ∧
     (hazardClass (modelEntry (BasinStats.mk 0 0 0) 1 16).P
        (modelEntry (BasinStats.mk 0 0 0) 1 16).V = 0 ↔
      (¬(0.60 ≤ (modelEntry (BasinStats.mk 0 0 0) 1 16).P ∧
         1000 ≤ (modelEntry (BasinStats.mk 0 0 0) 1 16).V) ∧
       ¬(0.40 ≤ (modelEntry (BasinStats.mk 0 0 0) 1 16).P ∨
         500 ≤ (modelEntry (BasinStats.mk 0 0 0) 1 16).V) ∧
       ¬(0.20 ≤ (modelEntry (BasinStats.mk 0 0 0) 1 16).P ∨
         100 ≤ (modelEntry (BasinStats.mk 0 0 0) 1 16).V)))) :=
  C1_class_is_threshold_table_of_computed_PV [1] [BasinStats.mk 0 0 0]
    (mkHazardFeature (BasinStats.mk 0 0 0) 1)
    (modelEntry (BasinStats.mk 0 0 0) 1 16)
    (by simp [step9_run_model, step9_go])
    (by simp [mkHazardFeature, I15_VALUES])

/-- Counterexample to C1 as stated: on the *recorded* (rounded) pair the
threshold table does not reproduce the stored class.  For a basin of area
`cexArea` (≈ 10353 km², as the perimeter fallback can supply), zero slope,
zero burn ratios and `I15 = 16`, the computed volume is exactly 499.999 m³
so the stored class is 1, but the recorded `V_j` is `round(499.999, 2) =
500.0`, and the table on the recorded pair yields class 2. -/
theorem C1_recorded_pair_counterexample :
    (modelEntry (BasinStats.mk 0 0 0) cexArea 16).H = 1 ∧
    hazardClass (recordedP (modelEntry (BasinStats.mk 0 0 0) cexArea 16))
      (recordedV (modelEntry (BasinStats.mk 0 0 0) cexArea 16)) = 2 := by
  have hP := staleyP_cex_bounds
  have hV : (modelEntry (BasinStats.mk 0 0 0) cexArea 16).V = 499.999 := gartnerV_cex
  have hPdef : (modelEntry (BasinStats.mk 0 0 0) cexArea 16).P = staleyP 0 0 0 16 := rfl
  constructor
  · show hazardClass (staleyP 0 0 0 16) (gartnerV cexArea 0 16) = 1
    rw [gartnerV_cex]
    unfold hazardClass
    rw [if_neg, if_neg, if_pos]
    · right
      norm_num
    · rintro (h | h)
      · exact absurd h (by linarith [hP.1])
      · norm_num at h
    · rintro ⟨h, -⟩
      exact absurd h (by linarith [hP.1])
  · rw [recordedV, hV, roundTo_cex]
    unfold hazardClass
    rw [if_neg, if_pos]
    · right
      norm_num
    · rintro ⟨-, h⟩
      norm_num at h

/-! ## C2 -/

/-- The log-linear identity for the Gartner volume, for any rainfall
intensity at least 1 (so the `max(I15, 1)` guard of line 553 is inactive). -/
theorem gartner_log (area hs I15 : ℝ) (hI : 1 ≤ I15) :
    Real.logb 10 (gartnerV area hs I15)
      = GARTNER_A0 + GARTNER_A1 * Real.logb 10 I15
        + GARTNER_A2 * Real.logb 10 (max area 0.01) + GARTNER_A3 * hs := by
  rw [gartnerV, Real.logb_rpow (by norm_num) (by norm_num), max_eq_left hI]

/-- C2: for every basin and every entry of the rainfall schedule, the
volume satisfies `log10(V) = a0 + a1*log10(I15) + a2*log10(max(area,0.01))
+ a3*high_sev` with `a0 = -1.87`, `a1 = 0.56`, `a2 = 0.97`, `a3 = 0.61`;
the floored area term is at least 0.01, hence positive, so a zero or
negative basin area is never passed to the logarithm. -/
theorem C2_volume_loglinear (area hs I15 : ℝ) (hI : I15 ∈ I15_VALUES) :
    Real.logb 10 (gartnerV area hs I15)
      = -1.87 + 0.56 * Real.logb 10 I15 + 0.97 * Real.logb 10 (max area 0.01)
        + 0.61 * hs ∧
    0.01 ≤ max area 0.01 ∧ 0 < max area 0.01 := by
  have h1 : (1:ℝ) ≤ I15 := by
    simp only [I15_VALUES, List.mem_cons, List.not_mem_nil, or_false] at hI
    rcases hI with h | h | h | h <;> rw [h] <;> norm_num
  refine ⟨?_, le_max_right _ _,
    lt_of_lt_of_le (by norm_num) (le_max_right area 0.01)⟩
  rw [gartner_log area hs I15 h1, GARTNER_A0, GARTNER_A1, GARTNER_A2, GARTNER_A3]

/-- Witness for C2: area 0 (floored to 0.01), high severity 0.5, the first
schedule entry 16 mm/hr. -/
theorem C2_volume_loglinear_witness :
    (Real.logb 10 (gartnerV 0 0.5 16)
      = -1.87 + 0.56 * Real.logb 10 16 + 0.97 * Real.logb 10 (max 0 0.01)
        + 0.61 * 0.5 ∧
     0.01 ≤ max (0:ℝ) 0.01 ∧ 0 < max (0:ℝ) 0.01) :=
  C2_volume_loglinear 0 0.5 16 (by simp [I15_VALUES])

/-! ## C3 -/

/-- The Gartner volume is strictly increasing in rainfall intensity, for
intensities at least 1 (below 1 the `max(I15, 1)` guard freezes the
rainfall term). -/
theorem gartnerV_strictMono_I15 (area hs : ℝ) (i i' : ℝ) (h1 : 1 ≤ i)
    (h2 : i < i') : gartnerV area hs i < gartnerV area hs i' := by
  rw [gartnerV, gartnerV, Real.rpow_lt_rpow_left_iff (by norm_num : (1:ℝ) < 10),
    max_eq_left h1, max_eq_left (le_trans h1 h2.le)]
  have hl : Real.logb 10 i < Real.logb 10 i' :=
    Real.logb_lt_logb (by norm_num) (by linarith) h2
  have hA : (0:ℝ) < GARTNER_A1 := by rw [GARTNER_A1]; norm_num
  have := mul_lt_mul_of_pos_left hl hA
  linarith

/-- The Gartner volume is strictly increasing in the high-severity burn
ratio. -/
theorem gartnerV_strictMono_hs (area i : ℝ) (hs hs' : ℝ) (h : hs < hs') :
    gartnerV area hs i < gartnerV area hs' i := by
  rw [gartnerV, gartnerV, Real.rpow_lt_rpow_left_iff (by norm_num : (1:ℝ) < 10)]
  have hA : (0:ℝ) < GARTNER_A3 := by rw [GARTNER_A3]; norm_num
  have := mul_lt_mul_of_pos_left h hA
  linarith

/-- The Staley probability is strictly increasing in rainfall intensity
when the burn ratio is positive. -/
theorem staleyP_strictMono_I15 (s hs : ℝ) (b i i' : ℝ) (hb : 0 < b)
    (h0 : 0 ≤ i) (h : i < i') : staleyP s b hs i < staleyP s b hs i' := by
  have hx : Real.sqrt (i * b) < Real.sqrt (i' * b) :=
    Real.sqrt_lt_sqrt (mul_nonneg h0 hb.le) (mul_lt_mul_of_pos_right h hb)
  have hB : (0:ℝ) < STALEY_B3 := by rw [STALEY_B3]; norm_num
  have hX : staleyX s b hs i < staleyX s b hs i' := by
    rw [staleyX, staleyX]
    have := mul_lt_mul_of_pos_left hx hB
    linarith
  have h1 : Real.exp (-(staleyX s b hs i')) < Real.exp (-(staleyX s b hs i)) :=
    Real.exp_lt_exp.mpr (by linarith)
  rw [staleyP, staleyP, div_lt_div_iff₀ (by positivity) (by positivity)]
  linarith

/-- C3: holding the other inputs fixed, the volume is strictly increasing
in rainfall intensity (for intensities at least 1, which covers the whole
schedule) and in the high-severity burn ratio; and for the single-basin
scenario (area 0.5 km², slope 20°, burn ratio 0.9, high-severity ratio
0.5), step 9 yields one feature whose four entries follow the schedule
`[16, 20, 24, 40]` with strictly increasing computed probability and
volume. -/
theorem C3_monotonicity_and_scenario :
    (∀ (area hs i i' : ℝ), 1 ≤ i → i < i' →
        gartnerV area hs i < gartnerV area hs i') ∧
    (∀ (area i hs hs' : ℝ), hs < hs' →
        gartnerV area hs i < gartnerV area hs' i) ∧
    step9_run_model [0.5] [scenarioStats] = [mkHazardFeature scenarioStats 0.5] ∧
    (mkHazardFeature scenarioStats 0.5).entries =
      [modelEntry scenarioStats 0.5 16, modelEntry scenarioStats 0.5 20,
       modelEntry scenarioStats 0.5 24, modelEntry scenarioStats 0.5 40] ∧
    ((modelEntry scenarioStats 0.5 16).P < (modelEntry scenarioStats 0.5 20).P ∧
     (modelEntry scenarioStats 0.5 20).P < (modelEntry scenarioStats 0.5 24).P ∧
     (modelEntry scenarioStats 0.5 24).P < (modelEntry scenarioStats 0.5 40).P) ∧
    ((modelEntry scenarioStats 0.5 16).V < (modelEntry scenarioStats 0.5 20).V ∧
     (modelEntry scenarioStats 0.5 20).V < (modelEntry scenarioStats 0.5 24).V ∧
     (modelEntry scenarioStats 0.5 24).V < (modelEntry scenarioStats 0.5 40).V) := by
  have hb : (0:ℝ) < scenarioStats.burn_ratio := by
    rw [scenarioStats]
    norm_num
  refine ⟨fun area hs i i' h1 h2 => gartnerV_strictMono_I15 area hs i i' h1 h2,
    fun area i hs hs' h => gartnerV_strictMono_hs area i hs hs' h,
    by simp [step9_run_model, step9_go],
    by simp [mkHazardFeature, I15_VALUES],
    ⟨staleyP_strictMono_I15 _ _ _ _ _ hb (by norm_num) (by norm_num),
     staleyP_strictMono_I15 _ _ _ _ _ hb (by norm_num) (by norm_num),
     staleyP_strictMono_I15 _ _ _ _ _ hb (by norm_num) (by norm_num)⟩,
    ⟨gartnerV_strictMono_I15 _ _ _ _ (by norm_num) (by norm_num),
     gartnerV_strictMono_I15 _ _ _ _ (by norm_num) (by norm_num),
     gartnerV_strictMono_I15 _ _ _ _ (by norm_num) (by norm_num)⟩⟩

end Palisades

namespace Palisades

/-! ## C5 -/

/-- C5: a vectorized basin is retained by the step-7 area filter iff its
`Area_km2` lies in the closed interval `[0.01, 8]`; a basin of exactly
0.01 km² (10⁴ m²) and one of exactly 8 km² (8·10⁶ m²) are retained. -/
theorem C5_area_filter_inclusive_window :
    (∀ (bs : List Basin) (p : Basin × ℝ),
        p ∈ step7_area_filter bs ↔
          p.1 ∈ bs ∧ p.2 = basin_area_km2 p.1 ∧ 0.01 ≤ p.2 ∧ p.2 ≤ 8) ∧
    (Basin.mk 10000, basin_area_km2 (Basin.mk 10000)) ∈
      step7_area_filter [Basin.mk 10000] ∧
    (Basin.mk 8000000, basin_area_km2 (Basin.mk 8000000)) ∈
      step7_area_filter [Basin.mk 8000000] ∧
    basin_area_km2 (Basin.mk 10000) = 0.01 ∧
    basin_area_km2 (Basin.mk 8000000) = 8 := by
  have hiff : ∀ (bs : List Basin) (p : Basin × ℝ),
      p ∈ step7_area_filter bs ↔
        p.1 ∈ bs ∧ p.2 = basin_area_km2 p.1 ∧ 0.01 ≤ p.2 ∧ p.2 ≤ 8 := by
    intro bs p
    simp only [step7_area_filter, List.mem_filter, List.mem_map,
      decide_eq_true_eq]
    constructor
    · rintro ⟨⟨b, hb, rfl⟩, hcond⟩
      exact ⟨hb, rfl, hcond.1, by linarith [hcond.2]⟩
    · rintro ⟨h1, h2, h3, h4⟩
      refine ⟨⟨p.1, h1, ?_⟩, ?_⟩
      · exact Prod.ext_iff.mpr ⟨rfl, h2.symm⟩
      · exact ⟨h3, by linarith⟩
  have hlow : basin_area_km2 (Basin.mk 10000) = 0.01 := by
    rw [basin_area_km2]
    norm_num
  have hhigh : basin_area_km2 (Basin.mk 8000000) = 8 := by
    rw [basin_area_km2]
    norm_num
  refine ⟨hiff, ?_, ?_, hlow, hhigh⟩
  · exact (hiff _ _).mpr ⟨by simp, rfl, by rw [hlow], by rw [hlow]; norm_num⟩
  · exact (hiff _ _).mpr ⟨by simp, rfl, by rw [hhigh]; norm_num, by rw [hhigh]⟩

/-! ## C6 -/

/-- C6: when the area filter leaves zero basin polygons, step 7 does not
fail: the analysis perimeter itself, with its computed `Area_km2`, becomes
the sole basin handed to the later stages. -/
theorem C6_perimeter_fallback (perim : Basin) (bs : List Basin)
    (h : step7_area_filter bs = []) :
    step7_filter_with_fallback perim bs = [(perim, basin_area_km2 perim)] ∧
    step7_filter_with_fallback perim bs ≠ [] := by
  have h1 : step7_filter_with_fallback perim bs =
      [(perim, basin_area_km2 perim)] := by
    rw [step7_filter_with_fallback, h, step7_finalize]
    simp
  refine ⟨h1, ?_⟩
  rw [h1]
  simp

/-- Witness for C6: a 5 km² perimeter and a single 1 m² basin (below the
area window, so the filter empties the list). -/
theorem C6_perimeter_fallback_witness :
    step7_filter_with_fallback (Basin.mk 5000000) [Basin.mk 1] =
      [(Basin.mk 5000000, basin_area_km2 (Basin.mk 5000000))] ∧
    step7_filter_with_fallback (Basin.mk 5000000) [Basin.mk 1] ≠ [] :=
  C6_perimeter_fallback (Basin.mk 5000000) [Basin.mk 1]
    (by
      have hfalse : decide (0.01 ≤ basin_area_km2 (Basin.mk 1) ∧
          basin_area_km2 (Basin.mk 1) ≤ 8.0) = false := by
        rw [decide_eq_false_iff_not]
        intro hcon
        have h := hcon.1
        rw [basin_area_km2] at h
        norm_num at h
      simp [step7_area_filter, hfalse]
      intro h
      rw [basin_area_km2] at h
      norm_num at h)

/-! ## C4 -/

/-- C4: with the shared-slot `basins.geojson` cache entry present and
`force = false`, `start_analysis` returns `cached = true` and a synthetic
job whose status is `completed`, stage 10, progress 100, with
`basin_count` the cached feature count; no pipeline thread is launched
(hence no workspace is created, since the workspace is made inside the
launched thread) and the cache is untouched. -/
theorem C4_cache_short_circuit (st : ServiceState) (freshId : String)
    (fs : List HazardFeature)
    (hc : st.cache "basins.geojson" = some (GeoDoc.mk (some fs))) :
    (start_analysis false freshId st).2.1.cached = true ∧
    (start_analysis false freshId st).2.2 = false ∧
    job_lookup (start_analysis false freshId st).1.jobs
        (start_analysis false freshId st).2.1.job_id
      = some
          { status := "completed"
            step := 10
            message := "Analysis complete! (Cached results loaded)"
            progress := 100
            basin_count := some fs.length } ∧
    (start_analysis false freshId st).1.cache = st.cache := by
  have hsome : (st.cache "basins.geojson").isSome = true := by
    rw [hc]
    rfl
  simp [start_analysis, hsome, job_lookup, count_cached_basins, hc,
    List.lookup]

/-- Witness for C4: a state whose cache holds an empty feature collection
in the shared slot and whose job table is empty. -/
theorem C4_cache_short_circuit_witness :
    (start_analysis false "abc123"
        (ServiceState.mk []
          (fun n => if n = "basins.geojson"
                    then some (GeoDoc.mk (some [])) else none))).2.1.cached
      = true ∧
    (start_analysis false "abc123"
        (ServiceState.mk []
          (fun n => if n = "basins.geojson"
                    then some (GeoDoc.mk (some [])) else none))).2.2 = false ∧
    job_lookup
        (start_analysis false "abc123"
          (ServiceState.mk []
            (fun n => if n = "basins.geojson"
                      then some (GeoDoc.mk (some [])) else none))).1.jobs
        (start_analysis false "abc123"
          (ServiceState.mk []
            (fun n => if n = "basins.geojson"
                      then some (GeoDoc.mk (some [])) else none))).2.1.job_id
      = some
          { status := "completed"
            step := 10
            message := "Analysis complete! (Cached results loaded)"
            progress := 100
            basin_count := some (List.length ([] : List HazardFeature)) } ∧
    (start_analysis false "abc123"
        (ServiceState.mk []
          (fun n => if n = "basins.geojson"
                    then some (GeoDoc.mk (some [])) else none))).1.cache
      = (ServiceState.mk []
          (fun n => if n = "basins.geojson"
                    then some (GeoDoc.mk (some [])) else none)).cache :=
  C4_cache_short_circuit
    (ServiceState.mk []
      (fun n => if n = "basins.geojson"
                then some (GeoDoc.mk (some [])) else none))
    "abc123" [] (by simp)

/-! ## C8 -/

/-- C8: for a job id absent from the job table, `get_status` returns the
structured `not_found` object with an explanatory message; the embedded
operation is a total function, so no exception is possible. -/
theorem C8_get_status_not_found (st : ServiceState) (job_id : String)
    (h : job_lookup st.jobs job_id = none) :
    get_status job_id st =
      { status := "not_found"
        error := some ("Job " ++ job_id ++ " not found") } := by
  rw [get_status, h]

/-- Witness for C8: an empty job table and a concrete unknown id. -/
theorem C8_get_status_not_found_witness :
    get_status "nope" (ServiceState.mk [] (fun _ => none)) =
      { status := "not_found"
        error := some ("Job " ++ "nope" ++ " not found") } :=
  C8_get_status_not_found (ServiceState.mk [] (fun _ => none)) "nope" rfl

/-! ## C9 -/

/-- `unlink_if_exists` pointwise: the named file is gone, everything else
is untouched. -/
theorem unlink_if_exists_apply (c : CacheFS) (n m : String) :
    unlink_if_exists c n m = if m = n then none else c m := by
  rw [unlink_if_exists]
  by_cases h1 : (c n).isSome = true
  · rw [if_pos h1]
  · rw [if_neg h1]
    by_cases h2 : m = n
    · rw [if_pos h2, h2]
      exact Option.not_isSome_iff_eq_none.mp h1
    · rw [if_neg h2]

/-- The zone slot of any job id is not the shared basins slot. -/
theorem zone_slot_ne_basins (job_id : String) :
    zone_slot job_id ≠ "basins.geojson" := by
  intro h
  rw [zone_slot] at h
  have h2 : ('z' :: 'o' :: 'n' :: 'e' :: '_' ::
      (job_id.data ++ ".geojson".data)) = "basins.geojson".data :=
    congrArg String.data h
  simp at h2

/-- The zone slot of any job id is not the shared perimeter slot. -/
theorem zone_slot_ne_perimeter (job_id : String) :
    zone_slot job_id ≠ "perimeter.geojson" := by
  intro h
  rw [zone_slot] at h
  have h2 : ('z' :: 'o' :: 'n' :: 'e' :: '_' ::
      (job_id.data ++ ".geojson".data)) = "perimeter.geojson".data :=
    congrArg String.data h
  simp at h2

/-- C9: `clear_cache` empties exactly the two shared-slot artifacts
`basins.geojson` and `perimeter.geojson`; every zone slot
`zone_<job_id>.geojson` — and any other file — is unchanged. -/
theorem C9_clear_cache_frame (c : CacheFS) :
    clear_cache c "basins.geojson" = none ∧
    clear_cache c "perimeter.geojson" = none ∧
    (∀ job_id : String,
        clear_cache c (zone_slot job_id) = c (zone_slot job_id)) ∧
    (∀ name : String, name ≠ "basins.geojson" → name ≠ "perimeter.geojson" →
        clear_cache c name = c name) := by
  have hc : ∀ m, clear_cache c m =
      if m = "perimeter.geojson" then none
      else if m = "basins.geojson" then none else c m := by
    intro m
    show unlink_if_exists (unlink_if_exists c "basins.geojson")
        "perimeter.geojson" m = _
    rw [unlink_if_exists_apply, unlink_if_exists_apply]
  refine ⟨?_, ?_, ?_, ?_⟩
  · rw [hc, if_neg (by decide), if_pos rfl]
  · rw [hc, if_pos rfl]
  · intro job_id
    rw [hc, if_neg (zone_slot_ne_perimeter job_id),
      if_neg (zone_slot_ne_basins job_id)]
  · intro name h1 h2
    rw [hc, if_neg h2, if_neg h1]

end Palisades

namespace Palisades

/-! ## C7 -/

/-- The failure path of the stage runner: if every stage before some stage
`(k, m, p)` succeeds and that stage's external work raises `e`, the run
stops there.  The final job entry keeps `step = k` and `progress = p` from
the failing stage's own `_update` and gains `status = "error"`, the error
description, the diagnostic traceback and the `"Error: ..."` message; the
executed-stage trace is the prefix up to and including `k`, so no stage
after the failure runs and none reruns. -/
theorem run_stages_fail (outcome : ℕ → Option String) (tb : String → String)
    (cm : String) (n : ℕ) (L1 : List (ℕ × String × ℕ)) (k : ℕ) (m : String)
    (p : ℕ) (L2 : List (ℕ × String × ℕ)) (e : String) (j : Job)
    (h1 : ∀ s ∈ L1, outcome s.1 = none) (he : outcome k = some e) :
    run_stages outcome tb cm n (L1 ++ (k, m, p) :: L2) j =
      ({ j with
          step := k
          progress := p
          message := "Error: " ++ e
          status := "error"
          error := some e
          traceback := some (tb e) },
       L1.map (fun s => s.1) ++ [k]) := by
  induction L1 generalizing j with
  | nil =>
      simp only [List.nil_append, run_stages, he, List.map_nil]
  | cons s L1 ih =>
      obtain ⟨k0, m0, p0⟩ := s
      have h0 : outcome k0 = none := h1 (k0, m0, p0) (List.mem_cons_self _ _)
      simp only [List.cons_append, run_stages, h0, List.append_eq]
      rw [ih _ (fun t ht => h1 t (List.mem_cons_of_mem _ ht))]
      simp

/-- C7: for both the default and the zone pipeline, a stage failure makes
the except-handler set the job to terminal `error` status with the error
description and a traceback, while `step` and `progress` stay at the
failing stage's values; the trace of entered stages is the duplicate-free
prefix ending at the failing stage, so no stage is retried and nothing
runs after the failure. -/
theorem C7_stage_error_terminal :
    (∀ (outcome : ℕ → Option String) (tb : String → String) (cm : String)
        (n : ℕ), run_default outcome tb cm n =
          run_stages outcome tb cm n stageUpdates run_initial_job) ∧
    (∀ (outcome : ℕ → Option String) (tb : String → String) (cm : String)
        (n : ℕ), run_zone outcome tb cm n =
          run_stages outcome tb cm n zoneStageUpdates zone_initial_job) ∧
    (∀ (outcome : ℕ → Option String) (tb : String → String) (cm : String)
        (n : ℕ) (j : Job) (L1 : List (ℕ × String × ℕ)) (k : ℕ) (m : String)
        (p : ℕ) (L2 : List (ℕ × String × ℕ)) (e : String),
        (∀ s ∈ L1, outcome s.1 = none) → outcome k = some e →
        run_stages outcome tb cm n (L1 ++ (k, m, p) :: L2) j =
          ({ j with
              step := k
              progress := p
              message := "Error: " ++ e
              status := "error"
              error := some e
              traceback := some (tb e) },
           L1.map (fun s => s.1) ++ [k])) ∧
    (∀ (L1 : List (ℕ × String × ℕ)) (k : ℕ) (m : String) (p : ℕ)
        (L2 : List (ℕ × String × ℕ)),
        stageUpdates = L1 ++ (k, m, p) :: L2 →
        (L1.map (fun s => s.1) ++ [k]).Nodup) ∧
    (∀ (L1 : List (ℕ × String × ℕ)) (k : ℕ) (m : String) (p : ℕ)
        (L2 : List (ℕ × String × ℕ)),
        zoneStageUpdates = L1 ++ (k, m, p) :: L2 →
        (L1.map (fun s => s.1) ++ [k]).Nodup) := by
  have hsub : ∀ (L1 : List (ℕ × String × ℕ)) (k : ℕ) (m : String) (p : ℕ)
      (L2 : List (ℕ × String × ℕ)),
      ((L1 ++ (k, m, p) :: L2).map (fun s => s.1)).Nodup →
      (L1.map (fun s => s.1) ++ [k]).Nodup := by
    intro L1 k m p L2 hn
    rw [List.map_append, List.map_cons] at hn
    exact List.Nodup.sublist
      (List.Sublist.append_left ((List.nil_sublist _).cons₂ k) _) hn
  refine ⟨fun _ _ _ _ => rfl, fun _ _ _ _ => rfl,
    fun outcome tb cm n j L1 k m p L2 e h1 he =>
      run_stages_fail outcome tb cm n L1 k m p L2 e j h1 he, ?_, ?_⟩
  · intro L1 k m p L2 h
    refine hsub L1 k m p L2 ?_
    rw [← h]
    decide
  · intro L1 k m p L2 h
    refine hsub L1 k m p L2 ?_
    rw [← h]
    decide

end Palisades

namespace GIS

/-! ## C10 -/

/-- C10: in `get_polygon_statistics`, the hazard distribution over the
intersecting basins buckets each feature by its `P_3` property alone
(0 when absent): `High` iff `P_3 ≥ 0.7`, else `Moderate` iff `P_3 ≥ 0.4`,
else `Low` iff `P_3 ≥ 0.2`, else `Very Low`; two feature lists with the
same `P_3` values (whatever their volumes, hazard classes or geometries)
produce the same distribution. -/
theorem C10_p3_only_bucketing :
    (∀ (c : HazardCounts) (p3 : ℝ),
        ((tally c p3).high = c.high + 1 ↔ 0.7 ≤ p3) ∧
        ((tally c p3).moderate = c.moderate + 1 ↔ (¬0.7 ≤ p3 ∧ 0.4 ≤ p3)) ∧
        ((tally c p3).low = c.low + 1 ↔
          (¬0.7 ≤ p3 ∧ ¬0.4 ≤ p3 ∧ 0.2 ≤ p3)) ∧
        ((tally c p3).very_low = c.very_low + 1 ↔
          (¬0.7 ≤ p3 ∧ ¬0.4 ≤ p3 ∧ ¬0.2 ≤ p3))) ∧
    (∀ (γ : Type) (f : GISFeature γ), f.props "P_3" = none → p3_of f = 0) ∧
    (∀ (γ δ : Type) (fs : List (GISFeature γ)) (gs : List (GISFeature δ)),
        fs.map p3_of = gs.map p3_of →
        hazard_distribution fs = hazard_distribution gs) ∧
    (∀ (γ : Type) (its : γ → Bool) (fs : List (GISFeature γ)),
        (filter_basins_by_polygon its fs).isEmpty = false →
        (get_polygon_statistics its fs).hazard_distribution =
          some (hazard_distribution (filter_basins_by_polygon its fs))) := by
  refine ⟨?_, ?_, ?_, ?_⟩
  · intro c p3
    rw [tally]
    split_ifs with h1 h2 h3
    · exact ⟨iff_of_true rfl h1,
        iff_of_false (by simp) (fun h => h.1 h1),
        iff_of_false (by simp) (fun h => h.1 h1),
        iff_of_false (by simp) (fun h => h.1 h1)⟩
    · exact ⟨iff_of_false (by simp) h1,
        iff_of_true rfl ⟨h1, h2⟩,
        iff_of_false (by simp) (fun h => h.2.1 h2),
        iff_of_false (by simp) (fun h => h.2.1 h2)⟩
    · exact ⟨iff_of_false (by simp) h1,
        iff_of_false (by simp) (fun h => h2 h.2),
        iff_of_true rfl ⟨h1, h2, h3⟩,
        iff_of_false (by simp) (fun h => h.2.2 h3)⟩
    · exact ⟨iff_of_false (by simp) h1,
        iff_of_false (by simp) (fun h => h2 h.2),
        iff_of_false (by simp) (fun h => h3 h.2.2),
        iff_of_true rfl ⟨h1, h2, h3⟩⟩
  · intro γ f h
    rw [p3_of, h]
    rfl
  · intro γ δ fs gs h
    rw [hazard_distribution, hazard_distribution,
      show (fun c f => tally c (p3_of f)) = (fun c f => tally c (p3_of f)) from rfl]
    rw [← List.foldl_map p3_of tally fs zeroCounts,
      ← List.foldl_map p3_of tally gs zeroCounts, h]
  · intro γ its fs h
    rw [get_polygon_statistics]
    simp only [h]
    rfl

end GIS
